import Mathlib

/-!
Shallow embedding of the CloudOps ROI assessment engine
(`src/calculators/roi_calculator.py`).

The Python module computes closed-form financial aggregates from a flat
metrics dictionary.  We embed the numeric computations over `ℚ` (exact
rational arithmetic, idealizing Python floats), model the metrics dict as a
structure of `Option ℚ` fields (`dict.get(key, default)` becomes
`qget`), and model the target-service list as a `List String` whose
recognized tags are the code's literal keys `"cloudwatch"`,
`"systems_manager"` and `"config"` (the spec's abstract names
`metrics-service` / `cloudwatch-equivalent`, `systems-manager-equivalent`
and `config-compliance-service` respectively).
-/

namespace ROICalc

/-- `dict.get(key, default)`: the value when the key is present, the
default otherwise (the semantics of `Option.getD`, re-stated by pattern
match). -/
def qget : Option ℚ → ℚ → ℚ
  | some x, _ => x
  | none, d => d

/-- The metrics snapshot (`current_metrics : Dict` in the source).  Each
field is one of the keys read by the calculator; `none` models an absent
key, and every read goes through `qget` with the default used at the
corresponding `metrics.get(...)` call site. -/
structure Metrics where
  monitoring_tool_licenses : Option ℚ := none
  server_costs : Option ℚ := none
  ops_staff_cost : Option ℚ := none
  annual_downtime_hours : Option ℚ := none
  hourly_revenue_impact : Option ℚ := none
  total_metrics : Option ℚ := none
  log_volume_gb_monthly : Option ℚ := none
  dashboards : Option ℚ := none
  total_instances : Option ℚ := none
  monthly_automations : Option ℚ := none
  configuration_items : Option ℚ := none
  compliance_checks_monthly : Option ℚ := none
  mean_time_to_resolution_hours : Option ℚ := none
  monthly_incidents : Option ℚ := none
  engineer_hourly_cost : Option ℚ := none
  annual_compliance_violations : Option ℚ := none
  compliance_violation_cost : Option ℚ := none
  annual_security_incidents : Option ℚ := none
  security_incident_cost : Option ℚ := none
  ops_team_size : Option ℚ := none
deriving Repr, DecidableEq

/-- The hardcoded `self.aws_pricing` table from `ROICalculator.__init__`. -/
structure AwsPricing where
  cloudwatch_metrics : ℚ
  cloudwatch_logs_ingestion : ℚ
  cloudwatch_dashboard : ℚ
  ssm_patch_management : ℚ
  ssm_inventory : ℚ
  ssm_automation : ℚ
  config_configuration_items : ℚ
  config_rules : ℚ
deriving Repr, DecidableEq

/-- `self.aws_pricing` with the literal unit rates from the constructor:
cloudwatch 0.30 / 0.50 / 3.00, systems_manager 0.09 / 0.0033 / 0.02,
config 0.003 / 0.001. -/
def aws_pricing : AwsPricing where
  cloudwatch_metrics := 3/10
  cloudwatch_logs_ingestion := 1/2
  cloudwatch_dashboard := 3
  ssm_patch_management := 9/100
  ssm_inventory := 33/10000
  ssm_automation := 1/50
  config_configuration_items := 3/1000
  config_rules := 1/1000

/-- `ROICalculator._calculate_current_costs`: monitoring licenses +
server costs + 30% of ops staff cost + downtime hours × hourly revenue
impact, each key defaulting to 0. -/
def calc_current_costs (metrics : Metrics) : ℚ :=
  (qget metrics.monitoring_tool_licenses 0) +
  (qget metrics.server_costs 0) +
  (qget metrics.ops_staff_cost 0) * (3/10) +
  (qget metrics.annual_downtime_hours 0) * (qget metrics.hourly_revenue_impact 0)

/-- `ROICalculator._calculate_aws_costs`: starts from 0 and adds the
modeled annual cost of each recognized service tag present in `services`
(membership test, mirroring Python's `'cloudwatch' in services` on a list). -/
def calc_aws_costs (metrics : Metrics) (services : List String) : ℚ :=
  let total0 : ℚ := 0
  let total1 :=
    if "cloudwatch" ∈ services then
      total0 +
        ((qget metrics.total_metrics 100) * aws_pricing.cloudwatch_metrics * 12 +
         (qget metrics.log_volume_gb_monthly 50) * aws_pricing.cloudwatch_logs_ingestion * 12 +
         (qget metrics.dashboards 10) * aws_pricing.cloudwatch_dashboard * 12)
    else total0
  let total2 :=
    if "systems_manager" ∈ services then
      total1 +
        ((qget metrics.total_instances 100) * aws_pricing.ssm_patch_management * 12 +
         (qget metrics.total_instances 100) * aws_pricing.ssm_inventory * 12 +
         (qget metrics.monthly_automations 50) * aws_pricing.ssm_automation * 12)
    else total1
  let total3 :=
    if "config" ∈ services then
      total2 +
        ((qget metrics.configuration_items 500) * aws_pricing.config_configuration_items * 12 +
         (qget metrics.compliance_checks_monthly 1000) * aws_pricing.config_rules * 12)
    else total2
  total3

/-- `ROICalculator._calculate_operational_savings`: projected MTTR is 40%
of current MTTR (60% improvement); monthly saving = incidents × MTTR delta
× engineer hourly cost, annualized ×12. -/
def calc_operational_savings (metrics : Metrics) : ℚ :=
  let current_mttr := qget metrics.mean_time_to_resolution_hours 4
  let projected_mttr := current_mttr * (2/5)
  let incident_frequency := qget metrics.monthly_incidents 20
  let avg_engineer_cost_per_hour := qget metrics.engineer_hourly_cost 100
  (incident_frequency * (current_mttr - projected_mttr) * avg_engineer_cost_per_hour) * 12

/-- `ROICalculator._calculate_risk_mitigation`: compliance violations ×
violation cost × 0.8 + security incidents × incident cost × 0.7. -/
def calc_risk_mitigation (metrics : Metrics) : ℚ :=
  (qget metrics.annual_compliance_violations 2) *
    (qget metrics.compliance_violation_cost 50000) * (4/5) +
  (qget metrics.annual_security_incidents 1) *
    (qget metrics.security_incident_cost 100000) * (7/10)

/-- `ROICalculator._calculate_migration_costs`: base 50000 scaled by a
complexity multiplier (×1.5 when `metrics.get('total_instances', 0) > 500`,
then ×1.2 when more than 2 services), plus team size × 2000 training. -/
def calc_migration_costs (metrics : Metrics) (services : List String) : ℚ :=
  let base_migration_cost : ℚ := 50000
  let mult0 : ℚ := 1
  let mult1 := if qget metrics.total_instances 0 > 500 then mult0 * (3/2) else mult0
  let mult2 := if services.length > 2 then mult1 * (6/5) else mult1
  let training_cost := (qget metrics.ops_team_size 5) * 2000
  base_migration_cost * mult2 + training_cost

/-- The break-even field: Python returns a float that is either a finite
quotient or `float('inf')`; we model the two cases explicitly. -/
inductive BreakEven where
  | months (m : ℚ)
  | posInf
deriving Repr, DecidableEq

/-- The `cost_breakdown` sub-dict of the result. -/
structure CostBreakdown where
  infrastructure_savings : ℚ
  productivity_gains : ℚ
  risk_reduction : ℚ
deriving Repr, DecidableEq

/-- The result dict of `calculate_migration_roi`. -/
structure ROIResult where
  current_annual_cost : ℚ
  aws_annual_cost : ℚ
  annual_savings : ℚ
  three_year_savings : ℚ
  migration_cost : ℚ
  three_year_roi : ℚ
  break_even_months : BreakEven
  operational_savings : ℚ
  risk_mitigation_value : ℚ
  cost_breakdown : CostBreakdown
deriving Repr, DecidableEq

set_option linter.unusedVariables false in
/-- `ROICalculator.calculate_migration_roi`.  The `timeline_months`
argument (default 36 in the source) is accepted but never read, exactly as
in the source. -/
def calculate_migration_roi (current_metrics : Metrics)
    (target_services : List String) (timeline_months : ℤ) : ROIResult :=
  let current_annual_cost := calc_current_costs current_metrics
  let aws_annual_cost := calc_aws_costs current_metrics target_services
  let operational_savings := calc_operational_savings current_metrics
  let risk_mitigation := calc_risk_mitigation current_metrics
  let migration_cost := calc_migration_costs current_metrics target_services
  let annual_savings :=
    current_annual_cost - aws_annual_cost + operational_savings + risk_mitigation
  let three_year_savings := annual_savings * 3
  let three_year_roi := (three_year_savings - migration_cost) / migration_cost
  let break_even_months :=
    if annual_savings > 0 then BreakEven.months (migration_cost / (annual_savings / 12))
    else BreakEven.posInf
  { current_annual_cost := current_annual_cost
    aws_annual_cost := aws_annual_cost
    annual_savings := annual_savings
    three_year_savings := three_year_savings
    migration_cost := migration_cost
    three_year_roi := three_year_roi
    break_even_months := break_even_months
    operational_savings := operational_savings
    risk_mitigation_value := risk_mitigation
    cost_breakdown :=
      { infrastructure_savings := current_annual_cost - aws_annual_cost
        productivity_gains := operational_savings
        risk_reduction := risk_mitigation } }

/-- The business-case label: the conditional expression embedded in the
summary f-string of `generate_executive_summary` (line 206), applied to the
result's `three_year_roi` field. -/
def business_case (three_year_roi : ℚ) : String :=
  if three_year_roi > 1 then "STRONG"
  else if three_year_roi > 3/10 then "MODERATE"
  else "WEAK"

/-- The label `generate_executive_summary` prints for a ROI result. -/
def generate_executive_summary_case (roi_data : ROIResult) : String :=
  business_case roi_data.three_year_roi

/-- The metrics snapshot of the spec's end-to-end scenario (§8). -/
def scenarioMetrics : Metrics where
  total_instances := some 100
  monitoring_tool_licenses := some 27600
  ops_staff_cost := some 120000
  annual_downtime_hours := some 48
  hourly_revenue_impact := some 10000
  monthly_incidents := some 20
  mean_time_to_resolution_hours := some 4
  engineer_hourly_cost := some 100
  annual_compliance_violations := some 2
  compliance_violation_cost := some 50000
  annual_security_incidents := some 1
  security_incident_cost := some 100000
  ops_team_size := some 5

/-- The all-absent metrics snapshot: every key missing. -/
def emptyMetrics : Metrics := {}

/-- Claim C1: for the end-to-end scenario snapshot with the metrics
service selected, `calculate_migration_roi` returns target-platform annual
cost 1020, current annual cost 543600, operational savings 57600, risk
mitigation 150000, annual savings 750180, migration cost 60000, three-year
ROI (750180 × 3 − 60000) / 60000, and break-even months
60000 / (750180 / 12). -/
theorem c1_end_to_end_scenario :
    (calculate_migration_roi scenarioMetrics ["cloudwatch"] 36).aws_annual_cost = 1020 ∧
    (calculate_migration_roi scenarioMetrics ["cloudwatch"] 36).current_annual_cost = 543600 ∧
    (calculate_migration_roi scenarioMetrics ["cloudwatch"] 36).operational_savings = 57600 ∧
    (calculate_migration_roi scenarioMetrics ["cloudwatch"] 36).risk_mitigation_value = 150000 ∧
    (calculate_migration_roi scenarioMetrics ["cloudwatch"] 36).annual_savings = 750180 ∧
    (calculate_migration_roi scenarioMetrics ["cloudwatch"] 36).migration_cost = 60000 ∧
    (calculate_migration_roi scenarioMetrics ["cloudwatch"] 36).three_year_roi =
      (750180 * 3 - 60000) / 60000 ∧
    (calculate_migration_roi scenarioMetrics ["cloudwatch"] 36).break_even_months =
      BreakEven.months (60000 / (750180 / 12)) := by
  norm_num +decide [calculate_migration_roi, calc_current_costs, calc_aws_costs,
    calc_operational_savings, calc_risk_mitigation, calc_migration_costs,
    scenarioMetrics, aws_pricing, qget]

/-- Claim C2: the result of `calculate_migration_roi` does not depend on
the `timeline_months` argument, and the `three_year_savings` field always
equals 3 × the `annual_savings` field. -/
theorem c2_timeline_months_unused (m : Metrics) (s : List String) (t1 t2 : ℤ) :
    calculate_migration_roi m s t1 = calculate_migration_roi m s t2 ∧
    (calculate_migration_roi m s t1).three_year_savings =
      3 * (calculate_migration_roi m s t1).annual_savings := by
  refine ⟨rfl, ?_⟩
  show (calculate_migration_roi m s t1).annual_savings * 3 =
    3 * (calculate_migration_roi m s t1).annual_savings
  ring

/-- Claim C8: in every result of `calculate_migration_roi`, the
`annual_savings` field is the sum of the three `cost_breakdown` components,
and `infrastructure_savings` is current annual cost minus target-platform
annual cost. -/
theorem c8_breakdown_identity (m : Metrics) (s : List String) (t : ℤ) :
    (calculate_migration_roi m s t).annual_savings =
      (calculate_migration_roi m s t).cost_breakdown.infrastructure_savings +
      (calculate_migration_roi m s t).cost_breakdown.productivity_gains +
      (calculate_migration_roi m s t).cost_breakdown.risk_reduction ∧
    (calculate_migration_roi m s t).cost_breakdown.infrastructure_savings =
      (calculate_migration_roi m s t).current_annual_cost -
      (calculate_migration_roi m s t).aws_annual_cost := by
  exact ⟨rfl, rfl⟩

/-- Claim C3: `break_even_months` is the finite quotient
migration cost / (annual savings / 12) exactly when annual savings is
strictly positive, and the positive-infinity sentinel when annual savings
is zero or negative. -/
theorem c3_break_even_sentinel (m : Metrics) (s : List String) (t : ℤ) :
    (0 < (calculate_migration_roi m s t).annual_savings →
      (calculate_migration_roi m s t).break_even_months =
        BreakEven.months ((calculate_migration_roi m s t).migration_cost /
          ((calculate_migration_roi m s t).annual_savings / 12))) ∧
    ((calculate_migration_roi m s t).annual_savings ≤ 0 →
      (calculate_migration_roi m s t).break_even_months = BreakEven.posInf) := by
  have hdef : (calculate_migration_roi m s t).break_even_months =
      if 0 < (calculate_migration_roi m s t).annual_savings then
        BreakEven.months ((calculate_migration_roi m s t).migration_cost /
          ((calculate_migration_roi m s t).annual_savings / 12))
      else BreakEven.posInf := rfl
  constructor
  · intro h
    rw [hdef, if_pos h]
  · intro h
    rw [hdef, if_neg (not_lt.mpr h)]

/-- Claim C3 witness: the scenario snapshot has strictly positive annual
savings, and its break-even field is the finite quotient. -/
theorem c3_break_even_sentinel_witness :
    0 < (calculate_migration_roi scenarioMetrics ["cloudwatch"] 36).annual_savings ∧
    (calculate_migration_roi scenarioMetrics ["cloudwatch"] 36).break_even_months =
      BreakEven.months ((calculate_migration_roi scenarioMetrics ["cloudwatch"] 36).migration_cost /
        ((calculate_migration_roi scenarioMetrics ["cloudwatch"] 36).annual_savings / 12)) :=
  ⟨by norm_num +decide [calculate_migration_roi, calc_current_costs, calc_aws_costs,
      calc_operational_savings, calc_risk_mitigation, calc_migration_costs,
      scenarioMetrics, aws_pricing, qget],
   (c3_break_even_sentinel scenarioMetrics ["cloudwatch"] 36).1
     (by norm_num +decide [calculate_migration_roi, calc_current_costs, calc_aws_costs,
        calc_operational_savings, calc_risk_mitigation, calc_migration_costs,
        scenarioMetrics, aws_pricing, qget])⟩

/-- Claim C4: the business-case label is "STRONG" exactly when the ROI
ratio exceeds 1, "MODERATE" exactly when it is at most 1 and exceeds 0.3,
"WEAK" exactly when it is at most 0.3; in particular ratio 1 gives
"MODERATE" and ratio 0.3 gives "WEAK". -/
theorem c4_business_case_label (r : ℚ) :
    (business_case r = "STRONG" ↔ 1 < r) ∧
    (business_case r = "MODERATE" ↔ r ≤ 1 ∧ 3/10 < r) ∧
    (business_case r = "WEAK" ↔ r ≤ 3/10) ∧
    business_case 1 = "MODERATE" ∧ business_case (3/10) = "WEAK" := by
  by_cases h1 : 1 < r
  · have h1a : ¬ r ≤ 1 := not_le.mpr h1
    have h2 : (3:ℚ)/10 < r := lt_trans (by norm_num) h1
    have h2a : ¬ r ≤ 3/10 := not_le.mpr h2
    norm_num +decide [business_case, h1, h1a, h2, h2a]
  · by_cases h2 : (3:ℚ)/10 < r
    · have h2a : ¬ r ≤ 3/10 := not_le.mpr h2
      have h1a : r ≤ 1 := not_lt.mp h1
      norm_num +decide [business_case, h1, h1a, h2, h2a]
    · have h2a : r ≤ 3/10 := not_lt.mp h2
      have h1a : r ≤ 1 := le_trans h2a (by norm_num)
      norm_num +decide [business_case, h1, h1a, h2, h2a]

/-- Claim C5: with the systems-manager tag selected and the other two
recognized tags absent, the target-platform annual cost is exactly the
patch + inventory + automation formula; a list with none of the three
recognized tags costs exactly 0. -/
theorem c5_systems_manager_cost (m : Metrics) (s u : List String)
    (hs : "systems_manager" ∈ s) (hc : "cloudwatch" ∉ s) (hg : "config" ∉ s)
    (hu1 : "cloudwatch" ∉ u) (hu2 : "systems_manager" ∉ u) (hu3 : "config" ∉ u) :
    calc_aws_costs m s =
      (qget m.total_instances 100) * aws_pricing.ssm_patch_management * 12 +
      (qget m.total_instances 100) * aws_pricing.ssm_inventory * 12 +
      (qget m.monthly_automations 50) * aws_pricing.ssm_automation * 12 ∧
    calc_aws_costs m u = 0 := by
  constructor
  · simp [calc_aws_costs, hs, hc, hg]
  · simp [calc_aws_costs, hu1, hu2, hu3]

/-- Claim C5 witness: the concrete lists `["systems_manager"]` and
`["zabbix"]` satisfy the tag-membership hypotheses, and the costs are the
formula value and 0 respectively. -/
theorem c5_systems_manager_cost_witness :
    "systems_manager" ∈ (["systems_manager"] : List String) ∧
    "cloudwatch" ∉ (["systems_manager"] : List String) ∧
    "config" ∉ (["systems_manager"] : List String) ∧
    "cloudwatch" ∉ (["zabbix"] : List String) ∧
    "systems_manager" ∉ (["zabbix"] : List String) ∧
    "config" ∉ (["zabbix"] : List String) ∧
    (calc_aws_costs emptyMetrics ["systems_manager"] =
      (qget emptyMetrics.total_instances 100) * aws_pricing.ssm_patch_management * 12 +
      (qget emptyMetrics.total_instances 100) * aws_pricing.ssm_inventory * 12 +
      (qget emptyMetrics.monthly_automations 50) * aws_pricing.ssm_automation * 12 ∧
     calc_aws_costs emptyMetrics ["zabbix"] = 0) :=
  ⟨by decide, by decide, by decide, by decide, by decide, by decide,
   c5_systems_manager_cost emptyMetrics ["systems_manager"] ["zabbix"]
     (by decide) (by decide) (by decide) (by decide) (by decide) (by decide)⟩

/-- Claim C6: the migration cost is 50000 times the product of the two
conditional multipliers (×1.5 when instance count exceeds 500, ×1.2 when
more than 2 services are selected) plus team size × 2000; in particular
600 instances and 3 services give the 1.5 × 1.2 = 1.8 multiplier. -/
theorem c6_migration_cost_multiplicative (m : Metrics) (s : List String) :
    (calc_migration_costs m s =
      50000 * ((if qget m.total_instances 0 > 500 then (3:ℚ)/2 else 1) *
        (if s.length > 2 then (6:ℚ)/5 else 1)) +
      (qget m.ops_team_size 5) * 2000) ∧
    calc_migration_costs ({ total_instances := some 600 } : Metrics) ["a", "b", "c"] =
      50000 * ((3:ℚ)/2 * (6/5)) + 5 * 2000 := by
  constructor
  · by_cases hi : qget m.total_instances 0 > 500 <;>
      by_cases hs : s.length > 2 <;>
        simp [calc_migration_costs, hi, hs]
  · norm_num +decide [calc_migration_costs, qget]

/-- Claim C7: on the all-absent snapshot the calculator substitutes the
documented defaults: current annual cost 0; target-platform annual cost
1020 with the metrics service selected; operational savings 57600; risk
mitigation 150000; and migration cost 60000 for any single-service list. -/
theorem c7_empty_snapshot_defaults (s : List String) (h : s.length = 1) :
    (calculate_migration_roi emptyMetrics ["cloudwatch"] 36).current_annual_cost = 0 ∧
    (calculate_migration_roi emptyMetrics ["cloudwatch"] 36).aws_annual_cost = 1020 ∧
    (calculate_migration_roi emptyMetrics ["cloudwatch"] 36).operational_savings = 57600 ∧
    (calculate_migration_roi emptyMetrics ["cloudwatch"] 36).risk_mitigation_value = 150000 ∧
    calc_migration_costs emptyMetrics s = 60000 := by
  have h2 : ¬ s.length > 2 := by omega
  refine ⟨?_, ?_, ?_, ?_, ?_⟩ <;>
    norm_num +decide [calculate_migration_roi, calc_current_costs, calc_aws_costs,
      calc_operational_savings, calc_risk_mitigation, calc_migration_costs,
      emptyMetrics, aws_pricing, qget, h2]

/-- Claim C7 witness: the single-service list `["cloudwatch"]` has length
1 and instantiates the defaults theorem. -/
theorem c7_empty_snapshot_defaults_witness :
    (["cloudwatch"] : List String).length = 1 ∧
    ((calculate_migration_roi emptyMetrics ["cloudwatch"] 36).current_annual_cost = 0 ∧
     (calculate_migration_roi emptyMetrics ["cloudwatch"] 36).aws_annual_cost = 1020 ∧
     (calculate_migration_roi emptyMetrics ["cloudwatch"] 36).operational_savings = 57600 ∧
     (calculate_migration_roi emptyMetrics ["cloudwatch"] 36).risk_mitigation_value = 150000 ∧
     calc_migration_costs emptyMetrics ["cloudwatch"] = 60000) :=
  ⟨rfl, c7_empty_snapshot_defaults ["cloudwatch"] rfl⟩

/-- Claim C9: when the team-size key, if present, is non-negative, the
migration cost is at least 50000 and strictly positive, so the ROI
division never divides by zero. -/
theorem c9_migration_cost_positive (m : Metrics) (s : List String) (t : ℤ)
    (h : 0 ≤ qget m.ops_team_size 0) :
    50000 ≤ (calculate_migration_roi m s t).migration_cost ∧
    0 < (calculate_migration_roi m s t).migration_cost := by
  have ht : 0 ≤ qget m.ops_team_size 5 := by
    rcases hv : m.ops_team_size with _ | x
    · norm_num [qget]
    · rw [hv] at h
      simpa [qget] using h
  have key : 50000 ≤ calc_migration_costs m s := by
    by_cases hi : qget m.total_instances 0 > 500 <;>
      by_cases hs : s.length > 2 <;>
        simp [calc_migration_costs, hi, hs] <;> nlinarith [ht]
  have hpos : (0:ℚ) < calc_migration_costs m s := lt_of_lt_of_le (by norm_num) key
  exact ⟨key, hpos⟩

/-- Claim C9 witness: the scenario snapshot has a non-negative team size
and its migration cost is at least 50000 and positive. -/
theorem c9_migration_cost_positive_witness :
    0 ≤ qget scenarioMetrics.ops_team_size 0 ∧
    (50000 ≤ (calculate_migration_roi scenarioMetrics ["cloudwatch"] 36).migration_cost ∧
     0 < (calculate_migration_roi scenarioMetrics ["cloudwatch"] 36).migration_cost) :=
  ⟨by norm_num [scenarioMetrics, qget],
   c9_migration_cost_positive scenarioMetrics ["cloudwatch"] 36
     (by norm_num [scenarioMetrics, qget])⟩

/-- Claim C10: when the instance-count key is absent, the systems-manager
cost computation behaves as if it were 100 while the migration-cost
complexity test behaves as if it were 0, so the ×1.5 multiplier is never
applied on such a snapshot. -/
theorem c10_inconsistent_instance_defaults (m : Metrics) (s : List String)
    (h : m.total_instances = none) :
    calc_aws_costs m s = calc_aws_costs { m with total_instances := some 100 } s ∧
    calc_migration_costs m s = calc_migration_costs { m with total_instances := some 0 } s ∧
    calc_migration_costs m s =
      50000 * (if s.length > 2 then (6:ℚ)/5 else 1) + (qget m.ops_team_size 5) * 2000 := by
  refine ⟨?_, ?_, ?_⟩
  · by_cases h1 : "cloudwatch" ∈ s <;> by_cases h2 : "systems_manager" ∈ s <;>
      by_cases h3 : "config" ∈ s <;>
        simp [calc_aws_costs, h, h1, h2, h3, qget]
  · by_cases hs : s.length > 2 <;>
      norm_num +decide [calc_migration_costs, h, hs, qget]
  · by_cases hs : s.length > 2 <;>
      norm_num +decide [calc_migration_costs, h, hs, qget]

/-- Claim C10 witness: the all-absent snapshot has no instance count and
instantiates the inconsistent-defaults theorem on `["cloudwatch"]`. -/
theorem c10_inconsistent_instance_defaults_witness :
    emptyMetrics.total_instances = none ∧
    (calc_aws_costs emptyMetrics ["cloudwatch"] =
       calc_aws_costs { emptyMetrics with total_instances := some 100 } ["cloudwatch"] ∧
     calc_migration_costs emptyMetrics ["cloudwatch"] =
       calc_migration_costs { emptyMetrics with total_instances := some 0 } ["cloudwatch"] ∧
     calc_migration_costs emptyMetrics ["cloudwatch"] =
       50000 * (if (["cloudwatch"] : List String).length > 2 then (6:ℚ)/5 else 1) +
         (qget emptyMetrics.ops_team_size 5) * 2000) :=
  ⟨rfl, c10_inconsistent_instance_defaults emptyMetrics ["cloudwatch"] rfl⟩

end ROICalc
